import Mathlib

/-!
Verification development for the movie-catalog application: a shallow
embedding of the storage backends (`storage/storage_json.py`,
`storage/storage_csv.py`), the schema migration (`migrations.py`) and the
title-resolution cascade (`movies.py`, `utils.py`), together with theorems
settling the specification claims about them.

Modelling conventions:
- Python strings are Lean `String`; all character-level work is done on
  `String.data` (`List Char`) so that every definition evaluates inside the
  kernel.
- Python floats (ratings, fuzzy scores) are carried by `Rat`; the code never
  computes with them, it only stores, compares and sorts them.
- Library functions whose behaviour is an external input to the code are
  parameters of the embedding: `cf` stands for `str.casefold`, `nt` for
  `utils.normalize_title`, `score` for `rapidfuzz.fuzz.WRatio`, `fmt` for
  Python float formatting, `pf` for Python float parsing.  Concrete
  ASCII-only instances are provided for evaluating closed statements; on
  ASCII text they agree with the Python functions they stand for.
- Raised Python exceptions become an `err` field (or an `Except` error);
  a raise happens before any write, so the file content accompanying an
  error is the unchanged input content.
-/

/-- Python exceptions raised by the storage layer. -/
inductive PyError where
  | jsonDecodeError
  | valueError (msg : String)
  | keyError (msg : String)
  | fileNotFoundError
deriving DecidableEq

instance {ε α : Type} [DecidableEq ε] [DecidableEq α] :
    DecidableEq (Except ε α) := fun a b =>
  match a, b with
  | .error e1, .error e2 =>
    if h : e1 = e2 then .isTrue (by rw [h]) else .isFalse (by simp [h])
  | .error _, .ok _ => .isFalse (by simp)
  | .ok _, .error _ => .isFalse (by simp)
  | .ok v1, .ok v2 =>
    if h : v1 = v2 then .isTrue (by rw [h]) else .isFalse (by simp [h])

/-- Python str.casefold restricted to ASCII text, where it lowercases A-Z.
Used only to instantiate the `cf`/`nt` parameters at concrete ASCII inputs. -/
def asciiCaseFold (s : String) : String :=
  String.mk (s.data.map Char.toLower)

/-- Python str.strip on ASCII whitespace: drop leading and trailing runs. -/
def pyStrip (s : String) : String :=
  String.mk (((s.data.dropWhile Char.isWhitespace).reverse.dropWhile
    Char.isWhitespace).reverse)

/-- Maximal whitespace-free runs of a character list: Python text.split(). -/
def asciiWords (cs : List Char) : List (List Char) :=
  (cs.splitOnP (fun c => c.isWhitespace)).filter (fun w => w ≠ [])

/-- Join words with single spaces: Python " ".join(words). -/
def joinSpace : List (List Char) → List Char
  | [] => []
  | [w] => w
  | w :: ws => w ++ ' ' :: joinSpace ws

/-- utils.normalize_title (utils.py 97-114) restricted to ASCII text, where
the NFKD step is the identity: casefold, then collapse internal whitespace
runs to single spaces and trim the ends.  Used to instantiate the normalizer
parameter `nt` at concrete ASCII inputs. -/
def normalize_title_ascii (s : String) : String :=
  String.mk (joinSpace (asciiWords (asciiCaseFold s).data))

/-- Contiguous-subsequence test on character lists: Python `needle in hay`. -/
def containsSeq (hay needle : List Char) : Bool :=
  (List.range (hay.length + 1)).any (fun i => needle.isPrefixOf (hay.drop i))

/-- Code-point lexicographic order on character lists, Python string `<=`. -/
def strLeChars : List Char → List Char → Bool
  | [], _ => true
  | _ :: _, [] => false
  | a :: as, b :: bs =>
    if a < b then true else if b < a then false else strLeChars as bs

/-- Python string comparison `a <= b` (code-point lexicographic). -/
def strLe (a b : String) : Bool :=
  strLeChars a.data b.data

/-- Python dict assignment d[k] = v: replace in place when the key is
present (keeping its position), otherwise append; insertion order is
preserved, matching dict enumeration semantics. -/
def dictInsert {α : Type} (es : List (String × α)) (k : String) (v : α) :
    List (String × α) :=
  if es.any (fun e => e.1 == k) then
    es.map (fun e => if e.1 == k then (k, v) else e)
  else es ++ [(k, v)]

/-! ## JSON backend (`storage/storage_json.py`) -/

/-- A record as written by StorageJson.add_movie (line 57): the three keys
"year", "rating", "poster"; `none` is Python None. -/
structure JsonRec where
  year : Option String
  rating : Option Rat
  poster : Option String
deriving DecidableEq

/-- Parse-level view of the bytes of the JSON backing file: a document whose
root is an object, a parseable document with a non-object root, or bytes on
which json.load raises JSONDecodeError (this includes the empty file). -/
inductive JsonFile where
  | obj (entries : List (String × JsonRec))
  | nonObj
  | unparseable
deriving DecidableEq

/-- The JSON backing file on disk; `none` is a missing file. -/
abbrev JsonFs := Option JsonFile

namespace StorageJson

/-- StorageJson._read (storage_json.py 32-42): open and json.load, raising
FileNotFoundError for a missing file and JSONDecodeError for unparseable
bytes, then raise ValueError when the root is not a dict.  The poster
migration guard (lines 38-41) is the identity here because `JsonRec` always
carries a poster field. -/
def read : JsonFs → Except PyError (List (String × JsonRec))
  | none => .error .fileNotFoundError
  | some .unparseable => .error .jsonDecodeError
  | some .nonObj => .error (.valueError "Root of storage JSON must be a dict")
  | some (.obj es) => .ok es

/-- StorageJson._write (storage_json.py 44-46): the resulting file content.
The step-by-step observable states of this write are modelled below by
`writeProgram`. -/
def write (es : List (String × JsonRec)) : JsonFs :=
  some (.obj es)

/-- Result of a storage call: the file content afterwards and the exception
raised, if any.  An exception is raised before any write runs, so on error
the file keeps its previous content. -/
structure Outcome where
  fs : JsonFs
  err : Option PyError
deriving DecidableEq

/-- StorageJson.__init__ (storage_json.py 18-29): a missing file is
initialized to an empty object; otherwise _read runs inside a try that
catches only json.JSONDecodeError (resetting the file).  A ValueError from a
non-object root propagates out of the constructor: the isinstance check on
line 25 is unreachable because _read already raised. -/
def init : JsonFs → Outcome
  | none => ⟨write [], none⟩
  | some .unparseable => ⟨write [], none⟩
  | some .nonObj =>
      ⟨some .nonObj, some (.valueError "Root of storage JSON must be a dict")⟩
  | some (.obj es) => ⟨some (.obj es), none⟩

/-- StorageJson.list_movies (storage_json.py 49-50): delegates to _read on
every call; any exception from _read propagates. -/
def list_movies (fs : JsonFs) : Except PyError (List (String × JsonRec)) :=
  read fs

/-- The record literal of StorageJson.add_movie line 57, embedded with its
conditional exactly as written: the stored year is str(year) = "None" when
the year argument is None, and Python None otherwise. -/
def added_record (year : Option String) (rating : Option Rat)
    (poster : Option String) : JsonRec :=
  { year := if year.isNone then some "None" else none
  , rating := rating
  , poster := poster }

/-- StorageJson.add_movie (storage_json.py 52-58): read, assign the record
under the title key, persist.  No duplicate check of any kind is
performed. -/
def add_movie (fs : JsonFs) (title : String) (year : Option String)
    (rating : Option Rat) (poster : Option String) : Outcome :=
  match read fs with
  | .error e => ⟨fs, some e⟩
  | .ok data =>
    ⟨write (dictInsert data title (added_record year rating poster)), none⟩

/-- StorageJson.delete_movie (storage_json.py 60-67): removes and persists
only when the exact title key is present; otherwise returns silently
without writing. -/
def delete_movie (fs : JsonFs) (title : String) : Outcome :=
  match read fs with
  | .error e => ⟨fs, some e⟩
  | .ok data =>
    if data.any (fun e => e.1 == title) then
      ⟨write (data.filter (fun e => e.1 != title)), none⟩
    else ⟨fs, none⟩

/-- StorageJson.update_movie (storage_json.py 69-76): overwrites the rating
and persists only when the exact title key is present; otherwise returns
silently without writing. -/
def update_movie (fs : JsonFs) (title : String) (rating : Option Rat) :
    Outcome :=
  match read fs with
  | .error e => ⟨fs, some e⟩
  | .ok data =>
    if data.any (fun e => e.1 == title) then
      ⟨write (data.map (fun e =>
        if e.1 == title then (e.1, { e.2 with rating := rating }) else e)),
       none⟩
    else ⟨fs, none⟩

/-- File-system operations performed by StorageJson._write (44-46):
self._path.open("w") truncates the target file in place, then json.dump
writes the serialized document into it. -/
inductive WriteOp where
  | openTruncate
  | dump (entries : List (String × JsonRec))
deriving DecidableEq

/-- Effect of one write operation on the target file: truncation leaves an
empty file, on which json.load raises, i.e. an unparseable store. -/
def applyWriteOp : JsonFs → WriteOp → JsonFs
  | _, .openTruncate => some .unparseable
  | _, .dump es => some (.obj es)

/-- The operation sequence of StorageJson._write (44-46): truncate the
target, then dump the document.  No temporary file and no rename occur. -/
def writeProgram (es : List (String × JsonRec)) : List WriteOp :=
  [.openTruncate, .dump es]

/-- File states observable while a sequence of operations runs, the initial
state included: an interruption after a prefix of the operations leaves the
file in the corresponding state. -/
def observableStates (start : JsonFs) (prog : List WriteOp) : List JsonFs :=
  prog.scanl applyWriteOp start

/-- The atomic-save property claimed by the specification: at every
observable point of a save the target file holds either its original
content or the complete new document. -/
def atomicSave (start : JsonFs) (es : List (String × JsonRec)) : Prop :=
  ∀ s ∈ observableStates start (writeProgram es),
    s = start ∨ s = some (.obj es)

instance (start : JsonFs) (es : List (String × JsonRec)) :
    Decidable (atomicSave start es) :=
  inferInstanceAs (Decidable (∀ s ∈ _, _ ∨ _))

end StorageJson

/-! ## CSV backend (`storage/storage_csv.py`) -/

/-- A CSV data row under the six-column schema written by StorageCsv
(FIELDNAMES, storage_csv.py 26); every cell is a string, the empty string
standing for a blank cell. -/
structure CsvRow where
  title : String
  rating : String
  year : String
  poster : String
  notes : String
  imdb_id : String
deriving DecidableEq

/-- A record as returned by StorageCsv.list_movies. -/
structure CsvRecord where
  rating : Option Rat
  year : Option String
  poster : Option String
  notes : Option String
  imdb_id : Option String
deriving DecidableEq

namespace StorageCsv

/-- Result of a storage call: the data rows of the file afterwards and the
exception raised, if any.  An exception is raised before _write_all runs,
so on error the file keeps its previous rows. -/
structure Outcome where
  rows : List CsvRow
  err : Option PyError
deriving DecidableEq

/-- StorageCsv._find_index_by_title (storage_csv.py 177-183): linear scan
comparing casefolded titles; `cf` stands for Python str.casefold. -/
def find_index_by_title (cf : String → String) (rows : List CsvRow)
    (title : String) : Option Nat :=
  rows.findIdx? (fun row => cf row.title == cf title)

/-- StorageCsv._none_if_blank (storage_csv.py 192-195). -/
def none_if_blank (s : String) : Option String :=
  let v := pyStrip s
  if v = "" then none else some v

/-- StorageCsv._to_float (storage_csv.py 197-207): blank or "N/A" cells are
None; `pf` stands for Python float parsing, `pf s = none` being a raised
ValueError, which the method converts to None. -/
def to_float (pf : String → Option Rat) (value : String) : Option Rat :=
  let s := pyStrip value
  if s = "" || String.mk (s.data.map Char.toUpper) = "N/A" then none
  else pf s

/-- StorageCsv.list_movies (storage_csv.py 34-55): build a dict keyed by the
stripped title, skipping rows with a blank title; a later duplicate key
overwrites the earlier value, as for a Python dict. -/
def list_movies (pf : String → Option Rat) (rows : List CsvRow) :
    List (String × CsvRecord) :=
  rows.foldl (fun result row =>
    let title := pyStrip row.title
    if title = "" then result
    else dictInsert result title
      { rating := to_float pf row.rating
      , year := none_if_blank row.year
      , poster := none_if_blank row.poster
      , notes := none_if_blank row.notes
      , imdb_id := none_if_blank row.imdb_id }) []

/-- The appended row literal of StorageCsv.add_movie lines 72-81; `fmt`
stands for the Python float formatting f-string of float(rating). -/
def build_row (fmt : Rat → String) (title : String) (year : Option String)
    (rating : Option Rat) (poster : Option String) (imdb_id : Option String) :
    CsvRow :=
  { title := title
  , rating := match rating with | none => "" | some r => fmt r
  , year := match year with | none => "" | some y => y
  , poster := match poster with
              | none => ""
              | some p => p   -- Python `poster or ""`
  , notes := ""
  , imdb_id := match imdb_id with
               | none => ""
               | some i => i }

/-- StorageCsv.add_movie (storage_csv.py 57-82): raise ValueError when a
casefold-equal title already exists, else append a row and rewrite. -/
def add_movie (cf : String → String) (fmt : Rat → String)
    (rows : List CsvRow) (title : String) (year : Option String)
    (rating : Option Rat) (poster : Option String) (imdb_id : Option String) :
    Outcome :=
  if (find_index_by_title cf rows title).isSome then
    ⟨rows, some (.valueError ("Movie \"" ++ title ++ "\" already exists."))⟩
  else
    ⟨rows ++ [build_row fmt title year rating poster imdb_id], none⟩

/-- StorageCsv.delete_movie (storage_csv.py 84-93): raise KeyError when no
casefold-equal title exists, else delete that row and rewrite. -/
def delete_movie (cf : String → String) (rows : List CsvRow)
    (title : String) : Outcome :=
  match find_index_by_title cf rows title with
  | none => ⟨rows, some (.keyError ("Movie \"" ++ title ++ "\" not found."))⟩
  | some i => ⟨rows.eraseIdx i, none⟩

/-- StorageCsv.update_movie (storage_csv.py 95-104): raise KeyError when no
casefold-equal title exists, else overwrite the rating cell and rewrite. -/
def update_movie (cf : String → String) (fmt : Rat → String)
    (rows : List CsvRow) (title : String) (rating : Option Rat) : Outcome :=
  match find_index_by_title cf rows title with
  | none => ⟨rows, some (.keyError ("Movie \"" ++ title ++ "\" not found."))⟩
  | some i =>
    ⟨rows.set i { rows.getD i ⟨"", "", "", "", "", ""⟩ with
        rating := match rating with | none => "" | some r => fmt r },
     none⟩

end StorageCsv

/-! ## CSV file level: `StorageCsv._ensure_file` and `migrations.py` -/

/-- Parsed view of a raw CSV file: the header row and the data rows, each
row a list of cells aligned with the header; the empty file is ⟨[], []⟩
(csv.DictReader reports fieldnames None for it). -/
structure CsvFile where
  header : List String
  rows : List (List String)
deriving DecidableEq

/-- The CSV store path and its migration backup path on disk. -/
structure CsvFs where
  main : Option CsvFile
  backup : Option CsvFile
deriving DecidableEq

/-- StorageCsv.FIELDNAMES (storage_csv.py 26). -/
def FIELDNAMES : List String :=
  ["title", "rating", "year", "poster", "notes", "imdb_id"]

namespace StorageCsv

/-- StorageCsv._ensure_file (storage_csv.py 119-148): a missing file, an
empty file, or a header from which any of the six FIELDNAMES is absent
makes needs_header true, and then the file is rewritten with the fresh
header row only — existing data rows are not carried over. -/
def ensure_file : Option CsvFile → Option CsvFile
  | none => some { header := FIELDNAMES, rows := [] }
  | some f =>
    if f.header.isEmpty
        || FIELDNAMES.any (fun fn => !(f.header.contains fn)) then
      some { header := FIELDNAMES, rows := [] }
    else some f

/-- StorageCsv.__init__ (storage_csv.py 28-30): run _ensure_file on the
store path; the backup path is never touched. -/
def constructor (fs : CsvFs) : CsvFs :=
  { main := ensure_file fs.main, backup := fs.backup }

end StorageCsv

/-- The fieldnames the migration works with (migrations.py 19-24): the
header, falling back to the four legacy column names for a headerless
file. -/
def migrateFieldnames (f : CsvFile) : List String :=
  if f.header.isEmpty then ["title", "rating", "year", "poster"]
  else f.header

/-- The rewritten file of a changing migration run (migrations.py 29-42):
the header gains a trailing "notes" column and every data row gains an
empty cell for it. -/
def migratedFile (f : CsvFile) : CsvFile :=
  { header := migrateFieldnames f ++ ["notes"]
  , rows := f.rows.map (fun r => r ++ [""]) }

/-- migrations.migrate_csv_add_notes (migrations.py 7-44): missing file
raises FileNotFoundError; if "notes" is already a fieldname return False
without touching anything; otherwise move the current file to the backup
path only when no backup exists yet, rewrite the store with the enlarged
schema, and return True.  The path-suffix check (.csv) is a path-name
detail outside this model. -/
def migrate_csv_add_notes (fs : CsvFs) : Except PyError (Bool × CsvFs) :=
  match fs.main with
  | none => .error .fileNotFoundError
  | some f =>
    if (migrateFieldnames f).contains "notes" then .ok (false, fs)
    else if fs.backup.isNone then
      .ok (true, { main := some (migratedFile f), backup := some f })
    else
      .ok (true, { main := some (migratedFile f), backup := fs.backup })

/-! ## Title resolution (`utils.py`, `movies.py`) -/

/-- utils.FUZZY_THRESHOLD (utils.py 13). -/
def FUZZY_THRESHOLD : Rat := 60

/-- utils.substring_matches (utils.py 117-133): titles whose normalized form
contains the normalized query as a contiguous substring, in input order;
`nt` stands for utils.normalize_title. -/
def substring_matches (nt : String → String) (all_titles : List String)
    (query : String) : List String :=
  all_titles.filter (fun t => containsSeq (nt t).data (nt query).data)

/-- Sort key order of utils.fuzzy_matches line 160, key (-score, title):
higher score first, title code-point ascending as the tie-break. -/
def fuzzyLe (a b : String × Rat) : Prop :=
  b.2 < a.2 ∨ (a.2 = b.2 ∧ strLe a.1 b.1 = true)

instance : DecidableRel fuzzyLe := fun a b =>
  inferInstanceAs (Decidable (b.2 < a.2 ∨ (a.2 = b.2 ∧ strLe a.1 b.1 = true)))

/-- utils.fuzzy_matches (utils.py 136-161): score every title against the
raw query, keep scores >= threshold, sort by (score desc, title asc) with a
stable sort (Python list.sort is stable, and a stable sort by a total
preorder is unique, so the structurally recursive stable insertion sort
used here computes the same list); `score` stands for rapidfuzz fuzz.WRatio
applied as WRatio(query, title). -/
def fuzzy_matches (score : String → String → Rat) (all_titles : List String)
    (query : String) (threshold : Rat) : List (String × Rat) :=
  ((all_titles.map (fun t => (t, score query t))).filter
    (fun ts => decide (threshold ≤ ts.2))).insertionSort fuzzyLe

/-- movies.select_title_from_user_query line 41: candidates whose normalized
form equals the normalized query, in catalog enumeration order. -/
def exactStage (nt : String → String) (titles : List String)
    (query : String) : List String :=
  titles.filter (fun t => nt t == nt query)

/-- Interaction shape of movies.select_title_from_user_query: a title
returned directly without prompting, a printed numbered menu plus an index
prompt (with fuzzy scores in the fuzzy stage), or the no-match message. -/
inductive Outcome where
  | unique (title : String)
  | ambiguous (candidates : List String)
  | ambiguousScored (candidates : List (String × Rat))
  | noMatch
deriving DecidableEq

/-- movies.select_title_from_user_query (movies.py 37-69), the titles
argument standing for list(movies.keys()) in catalog enumeration order:
a non-empty exact stage returns its first element directly (line 43); a
substring singleton is returned directly, several substring hits prompt;
any non-empty fuzzy list prompts, a singleton included; otherwise the
no-match message is printed. -/
def select_title_from_user_query (nt : String → String)
    (score : String → String → Rat) (titles : List String)
    (user_input : String) : Outcome :=
  match exactStage nt titles user_input with
  | t :: _ => .unique t
  | [] =>
    match substring_matches nt titles user_input with
    | [t] => .unique t
    | [] =>
      match fuzzy_matches score titles user_input FUZZY_THRESHOLD with
      | [] => .noMatch
      | f => .ambiguousScored f
    | subs => .ambiguous subs

/-! ## Concrete instances used in closed statements -/

/-- A stored JSON record used in closed statements. -/
def sampleJsonRec : JsonRec :=
  { year := some "1999", rating := some 9, poster := none }

/-- A stored CSV row used in closed statements. -/
def sampleCsvRow : CsvRow :=
  { title := "Movie", rating := "9.0", year := "1999"
  , poster := "", notes := "", imdb_id := "" }

/-- Score function realizing the C8 example {A: 70, B: 70, C: 80}. -/
def c8score : String → String → Rat :=
  fun _ t => if t = "C" then 80 else 70

/-- Score function realizing the C8 boundary example {Sixty: 60,
FiftyNine: 59}. -/
def c8boundaryScore : String → String → Rat :=
  fun _ t => if t = "Sixty" then 60 else 59

/-- Score function giving one fuzzy survivor, used for the C6 example. -/
def c6singleScore : String → String → Rat :=
  fun _ t => if t = "Zebra" then 80 else 0

/-- Constant zero score: no fuzzy survivors. -/
def zeroScore : String → String → Rat :=
  fun _ _ => 0

/-- A legacy four-column CSV file with one data row, used in closed
statements about `ensure_file` and the migration. -/
def legacyFile : CsvFile :=
  { header := ["title", "rating", "year", "poster"]
  , rows := [["Inception", "9.0", "2010", ""]] }

/-! ## Helper lemmas -/

theorem find_index_by_title_eq_none_iff (cf : String → String)
    (rows : List CsvRow) (title : String) :
    StorageCsv.find_index_by_title cf rows title = none ↔
      ∀ row ∈ rows, cf row.title ≠ cf title := by
  simp [StorageCsv.find_index_by_title, List.findIdx?_eq_none_iff]

theorem find_index_by_title_isSome_iff (cf : String → String)
    (rows : List CsvRow) (title : String) :
    (StorageCsv.find_index_by_title cf rows title).isSome = true ↔
      ∃ row ∈ rows, cf row.title = cf title := by
  simp [StorageCsv.find_index_by_title, List.findIdx?_isSome, List.any_eq_true]

theorem strLeChars_total (as : List Char) :
    ∀ bs, strLeChars as bs = true ∨ strLeChars bs as = true := by
  induction as with
  | nil => intro bs; left; rfl
  | cons a as ih =>
    intro bs
    cases bs with
    | nil => right; rfl
    | cons b bs =>
      rcases lt_trichotomy a b with h | h | h
      · left; simp [strLeChars, h]
      · subst h
        rcases ih bs with h2 | h2
        · left; simp [strLeChars, lt_irrefl, h2]
        · right; simp [strLeChars, lt_irrefl, h2]
      · right; simp [strLeChars, h]

theorem strLeChars_trans (as : List Char) :
    ∀ bs cs, strLeChars as bs = true → strLeChars bs cs = true →
      strLeChars as cs = true := by
  induction as with
  | nil => intro bs cs _ _; rfl
  | cons a as ih =>
    intro bs cs h1 h2
    cases bs with
    | nil => simp [strLeChars] at h1
    | cons b bs =>
      cases cs with
      | nil => simp [strLeChars] at h2
      | cons c cs =>
        by_cases hab : a < b
        · by_cases hbc : b < c
          · simp [strLeChars, lt_trans hab hbc]
          · by_cases hcb : c < b
            · simp [strLeChars, hbc, hcb] at h2
            · have hbceq : b = c := le_antisymm (not_lt.1 hcb) (not_lt.1 hbc)
              subst hbceq
              simp [strLeChars, hab]
        · by_cases hba : b < a
          · simp [strLeChars, hab, hba] at h1
          · have habeq : a = b := le_antisymm (not_lt.1 hba) (not_lt.1 hab)
            subst habeq
            simp only [strLeChars, lt_irrefl, if_false] at h1
            by_cases hac : a < c
            · simp [strLeChars, hac]
            · by_cases hca : c < a
              · simp [strLeChars, hac, hca] at h2
              · have haceq : a = c := le_antisymm (not_lt.1 hca) (not_lt.1 hac)
                subst haceq
                simp only [strLeChars, lt_irrefl, if_false] at h2 ⊢
                exact ih bs cs h1 h2

theorem fuzzyLe_total (a b : String × Rat) : fuzzyLe a b ∨ fuzzyLe b a := by
  rcases lt_trichotomy a.2 b.2 with h | h | h
  · right; left; exact h
  · rcases strLeChars_total a.1.data b.1.data with h2 | h2
    · left; right; exact ⟨h, h2⟩
    · right; right; exact ⟨h.symm, h2⟩
  · left; left; exact h

theorem fuzzyLe_trans (a b c : String × Rat) :
    fuzzyLe a b → fuzzyLe b c → fuzzyLe a c := by
  intro h1 h2
  rcases h1 with h1 | ⟨h1e, h1s⟩
  · rcases h2 with h2 | ⟨h2e, h2s⟩
    · left; exact lt_trans h2 h1
    · left; rw [← h2e]; exact h1
  · rcases h2 with h2 | ⟨h2e, h2s⟩
    · left; rw [h1e]; exact h2
    · right; exact ⟨h1e.trans h2e, strLeChars_trans _ _ _ h1s h2s⟩

/-! ## Claim C1 -/

/-- C1 is false on the code at concrete inputs: after the JSON backend adds
"Movie", adding "movie" raises nothing (no AlreadyExists) and changes the
store; and the CSV backend accepts " movie " although it collides with the
stored "Movie" under normalized (whitespace-collapsing) comparison, because
its check is casefold-only. -/
theorem C1_counterexample :
    ((StorageJson.add_movie
        (StorageJson.add_movie (some (.obj [])) "Movie" (some "1999") (some 9)
          none).fs "movie" (some "1999") (some 9) none).err = none ∧
     (StorageJson.add_movie
        (StorageJson.add_movie (some (.obj [])) "Movie" (some "1999") (some 9)
          none).fs "movie" (some "1999") (some 9) none).fs ≠
       (StorageJson.add_movie (some (.obj [])) "Movie" (some "1999") (some 9)
          none).fs) ∧
    normalize_title_ascii " movie " = normalize_title_ascii "Movie" ∧
    (StorageCsv.add_movie asciiCaseFold (fun _ => "9.0") [sampleCsvRow]
        " movie " none none none none).err = none := by decide

/-- C1 (amended): only the CSV backend enforces title uniqueness, and under
casefold comparison rather than full normalization: add_movie fails with
AlreadyExists (a ValueError) exactly when an existing row has a
casefold-equal title, leaving the rows unchanged, and otherwise appends a
single row; the JSON backend performs no collision check, so on any
readable store its add_movie succeeds, inserting or overwriting the entry. -/
theorem C1_theorem (cf : String → String) (fmt : Rat → String)
    (rows : List CsvRow) (title : String) (year : Option String)
    (rating : Option Rat) (poster : Option String) (imdb_id : Option String)
    (fs : JsonFs) (es : List (String × JsonRec)) :
    ((∃ row ∈ rows, cf row.title = cf title) →
      StorageCsv.add_movie cf fmt rows title year rating poster imdb_id =
        ⟨rows,
         some (.valueError ("Movie \"" ++ title ++ "\" already exists."))⟩) ∧
    ((∀ row ∈ rows, cf row.title ≠ cf title) →
      StorageCsv.add_movie cf fmt rows title year rating poster imdb_id =
        ⟨rows ++ [StorageCsv.build_row fmt title year rating poster imdb_id],
         none⟩) ∧
    (StorageJson.read fs = .ok es →
      StorageJson.add_movie fs title year rating poster =
        ⟨StorageJson.write (dictInsert es title
           (StorageJson.added_record year rating poster)), none⟩) := by
  refine ⟨fun h => ?_, fun h => ?_, fun h => ?_⟩
  · have hs : (StorageCsv.find_index_by_title cf rows title).isSome = true :=
      (find_index_by_title_isSome_iff cf rows title).2 h
    simp [StorageCsv.add_movie, hs]
  · have hn : StorageCsv.find_index_by_title cf rows title = none :=
      (find_index_by_title_eq_none_iff cf rows title).2 h
    simp [StorageCsv.add_movie, hn]
  · simp [StorageJson.add_movie, h]

/-- C1 witness: the amended claim applied at concrete inputs. -/
theorem C1_witness :
    StorageCsv.add_movie asciiCaseFold (fun _ => "9.0") [sampleCsvRow] "MOVIE"
        none none none none =
      ⟨[sampleCsvRow],
       some (.valueError ("Movie \"" ++ "MOVIE" ++ "\" already exists."))⟩ ∧
    StorageCsv.add_movie asciiCaseFold (fun _ => "9.0") [sampleCsvRow] "Other"
        none none none none =
      ⟨[sampleCsvRow] ++
         [StorageCsv.build_row (fun _ => "9.0") "Other" none none none none],
       none⟩ ∧
    StorageJson.add_movie (some (.obj [])) "Movie" (some "1999") (some 9)
        none =
      ⟨StorageJson.write (dictInsert [] "Movie"
         (StorageJson.added_record (some "1999") (some 9) none)), none⟩ :=
  ⟨(C1_theorem asciiCaseFold (fun _ => "9.0") [sampleCsvRow] "MOVIE" none none
      none none none []).1 ⟨sampleCsvRow, by decide, by decide⟩,
   (C1_theorem asciiCaseFold (fun _ => "9.0") [sampleCsvRow] "Other" none none
      none none none []).2.1 (by decide),
   (C1_theorem asciiCaseFold (fun _ => "9.0") [] "Movie" (some "1999") (some 9)
      none none (some (.obj [])) []).2.2 rfl⟩

/-! ## Claim C2 -/

/-- C2 is false on the code at concrete inputs: the JSON backend returns
silently (no NotFound) when deleting or updating a title absent from the
store; and the CSV backend deletes "MOVIE" although "MOVIE" is not an exact
key of the store (only the casefold-variant "Movie" is stored), where the
claim requires NotFound and an unchanged store. -/
theorem C2_counterexample :
    StorageJson.delete_movie (some (.obj [("Movie", sampleJsonRec)]))
        "Inception" = ⟨some (.obj [("Movie", sampleJsonRec)]), none⟩ ∧
    StorageJson.update_movie (some (.obj [("Movie", sampleJsonRec)]))
        "Inception" (some 5) =
      ⟨some (.obj [("Movie", sampleJsonRec)]), none⟩ ∧
    sampleCsvRow.title ≠ "MOVIE" ∧
    StorageCsv.delete_movie asciiCaseFold [sampleCsvRow] "MOVIE" =
      ⟨[], none⟩ := by decide

/-- C2 (amended): the CSV backend fails with NotFound (a KeyError) on
delete and on update-rating exactly when no stored row has a casefold-equal
title, and the rows — hence the list() view — are unchanged on failure (so
a casefold variant of a stored title is found and the operation proceeds);
the JSON backend raises nothing for an absent exact title key: delete and
update return silently with the store unchanged. -/
theorem C2_theorem (cf : String → String) (fmt : Rat → String)
    (pf : String → Option Rat) (rows : List CsvRow) (title : String)
    (rating : Option Rat) (fs : JsonFs) (es : List (String × JsonRec)) :
    ((∀ row ∈ rows, cf row.title ≠ cf title) →
      StorageCsv.delete_movie cf rows title =
        ⟨rows, some (.keyError ("Movie \"" ++ title ++ "\" not found."))⟩ ∧
      StorageCsv.update_movie cf fmt rows title rating =
        ⟨rows, some (.keyError ("Movie \"" ++ title ++ "\" not found."))⟩ ∧
      StorageCsv.list_movies pf (StorageCsv.delete_movie cf rows title).rows =
        StorageCsv.list_movies pf rows) ∧
    (StorageJson.read fs = .ok es → (∀ e ∈ es, e.1 ≠ title) →
      StorageJson.delete_movie fs title = ⟨fs, none⟩ ∧
      StorageJson.update_movie fs title rating = ⟨fs, none⟩) := by
  refine ⟨fun h => ?_, fun h1 h2 => ?_⟩
  · have hn : StorageCsv.find_index_by_title cf rows title = none :=
      (find_index_by_title_eq_none_iff cf rows title).2 h
    refine ⟨?_, ?_, ?_⟩ <;>
      simp [StorageCsv.delete_movie, StorageCsv.update_movie, hn]
  · have hb : es.any (fun e => e.1 == title) = false := by
      rw [List.any_eq_false]
      intro e he
      simpa using h2 e he
    constructor <;>
      simp [StorageJson.delete_movie, StorageJson.update_movie, h1, hb]

/-- C2 witness: the amended claim applied at concrete inputs. -/
theorem C2_witness :
    StorageCsv.delete_movie asciiCaseFold [sampleCsvRow] "Other" =
      ⟨[sampleCsvRow],
       some (.keyError ("Movie \"" ++ "Other" ++ "\" not found."))⟩ ∧
    StorageJson.delete_movie (some (.obj [("Movie", sampleJsonRec)]))
        "Inception" = ⟨some (.obj [("Movie", sampleJsonRec)]), none⟩ :=
  ⟨((C2_theorem asciiCaseFold (fun _ => "9.0") (fun _ => none) [sampleCsvRow]
      "Other" none none []).1 (by decide)).1,
   ((C2_theorem asciiCaseFold (fun _ => "9.0") (fun _ => none) []
      "Inception" none (some (.obj [("Movie", sampleJsonRec)]))
      [("Movie", sampleJsonRec)]).2 rfl (by decide)).1⟩

/-! ## Claim C3 -/

/-- C3 is false on the code at a concrete input: saving the empty store
over a file holding the record "Movie" passes through an observable state
that is neither the original content nor the new document (the truncated,
unparseable file), so the save is not atomic. -/
theorem C3_counterexample :
    ¬ StorageJson.atomicSave (some (.obj [("Movie", sampleJsonRec)])) [] := by
  decide

/-- C3 (amended): StorageJson._write opens the target path in write mode,
truncating it in place, and then writes the document directly into it — no
temporary file and no atomic rename are involved; the observable states of
a save are exactly original, truncated-empty (unparseable), final, so
whenever the original file is not itself unparseable the save is observable
in a half-written state, and an interruption between truncation and the
completed write leaves the empty file rather than the original content. -/
theorem C3_theorem (start : JsonFs) (es : List (String × JsonRec))
    (h : start ≠ some .unparseable) :
    StorageJson.observableStates start (StorageJson.writeProgram es) =
      [start, some .unparseable, some (.obj es)] ∧
    ¬ StorageJson.atomicSave start es := by
  have htr : StorageJson.observableStates start (StorageJson.writeProgram es) =
      [start, some .unparseable, some (.obj es)] := rfl
  refine ⟨htr, fun hat => ?_⟩
  have hmem : (some JsonFile.unparseable : JsonFs) ∈
      StorageJson.observableStates start (StorageJson.writeProgram es) := by
    rw [htr]; simp
  rcases hat _ hmem with h1 | h2
  · exact h h1.symm
  · simp at h2

/-- C3 witness: the amended claim applied at a concrete input. -/
theorem C3_witness :
    StorageJson.observableStates (some (.obj []))
        (StorageJson.writeProgram [("Movie", sampleJsonRec)]) =
      [some (.obj []), some .unparseable,
       some (.obj [("Movie", sampleJsonRec)])] ∧
    ¬ StorageJson.atomicSave (some (.obj [])) [("Movie", sampleJsonRec)] :=
  C3_theorem (some (.obj [])) [("Movie", sampleJsonRec)] (by decide)

/-! ## Claim C4 -/

/-- C4 is false on the code at concrete inputs: constructing the backend on
a parseable file whose root is not an object raises ValueError instead of
treating the store as empty, and calling list() on a file corrupted after
construction raises JSONDecodeError instead of returning an empty
mapping. -/
theorem C4_counterexample :
    (StorageJson.init (some .nonObj)).err =
      some (.valueError "Root of storage JSON must be a dict") ∧
    StorageJson.list_movies (some .unparseable) =
      .error .jsonDecodeError := by decide

/-- C4 (amended): the resilience lives in the constructor and covers only
a missing, empty, or unparseable file, which it resets to an empty store;
a parseable non-object root makes the constructor itself raise ValueError
(only JSONDecodeError is caught); and list() re-reads the file on every
call, so it returns the entries of a well-formed object file but raises
JSONDecodeError on unparseable bytes, ValueError on a non-object root, and
FileNotFoundError on a missing file — corruption after construction is not
recovered. -/
theorem C4_theorem (es : List (String × JsonRec)) :
    StorageJson.init none = ⟨some (.obj []), none⟩ ∧
    StorageJson.init (some .unparseable) = ⟨some (.obj []), none⟩ ∧
    StorageJson.init (some .nonObj) =
      ⟨some .nonObj,
       some (.valueError "Root of storage JSON must be a dict")⟩ ∧
    StorageJson.init (some (.obj es)) = ⟨some (.obj es), none⟩ ∧
    StorageJson.list_movies (some (.obj es)) = .ok es ∧
    StorageJson.list_movies (some .unparseable) = .error .jsonDecodeError ∧
    StorageJson.list_movies (some .nonObj) =
      .error (.valueError "Root of storage JSON must be a dict") ∧
    StorageJson.list_movies none = .error .fileNotFoundError :=
  ⟨rfl, rfl, rfl, rfl, rfl, rfl, rfl, rfl⟩

/-! ## Claim C5 -/

/-- C5 records a code bug: at the failing input, adding "Inception" with
year "2010" to an empty JSON store persists the record with year Python
None (the conditional on storage_json.py line 57 is inverted), so the
subsequent list() does not return the year that was provided, contradicting
the documented round-trip and the docstring of add_movie itself. -/
theorem C5_theorem :
    StorageJson.add_movie (some (.obj [])) "Inception" (some "2010") (some 9)
        none =
      ⟨some (.obj [("Inception",
         { year := none, rating := some 9, poster := none })]), none⟩ ∧
    StorageJson.list_movies (StorageJson.add_movie (some (.obj []))
        "Inception" (some "2010") (some 9) none).fs =
      .ok [("Inception", { year := none, rating := some 9, poster := none })] ∧
    (({ year := none, rating := some 9, poster := none } : JsonRec)).year ≠
      some "2010" := by decide

/-! ## Claim C6 -/

/-- C6 is false on the code at concrete inputs: with two exact-stage
survivors ("Movie" and "movie" both normalize to the query), the resolver
returns the first survivor directly instead of an Ambiguous outcome; and
with exactly one fuzzy-stage survivor it still runs the disambiguation
prompt instead of returning the survivor directly. -/
theorem C6_counterexample :
    exactStage normalize_title_ascii ["Movie", "movie"] "MOVIE" =
      ["Movie", "movie"] ∧
    select_title_from_user_query normalize_title_ascii zeroScore
        ["Movie", "movie"] "MOVIE" = .unique "Movie" ∧
    fuzzy_matches c6singleScore ["Zebra"] "Holiday" FUZZY_THRESHOLD =
      [("Zebra", 80)] ∧
    select_title_from_user_query normalize_title_ascii c6singleScore
        ["Zebra"] "Holiday" = .ambiguousScored [("Zebra", 80)] := by decide

/-- C6 (amended): the outcome of each cascade stage is: a non-empty exact
stage returns its first survivor directly, however many survivors there
are; a substring stage with exactly one survivor returns it directly and
with two or more yields disambiguation over the survivors in catalog
enumeration order; a non-empty fuzzy stage always yields disambiguation
over the scored survivors, a single survivor included; and when every
stage is empty the outcome is None. -/
theorem C6_theorem (nt : String → String) (score : String → String → Rat)
    (titles : List String) (q : String) :
    (∀ t rest, exactStage nt titles q = t :: rest →
      select_title_from_user_query nt score titles q = .unique t) ∧
    (∀ t, exactStage nt titles q = [] →
      substring_matches nt titles q = [t] →
      select_title_from_user_query nt score titles q = .unique t) ∧
    (∀ t1 t2 rest, exactStage nt titles q = [] →
      substring_matches nt titles q = t1 :: t2 :: rest →
      select_title_from_user_query nt score titles q =
        .ambiguous (t1 :: t2 :: rest)) ∧
    (∀ p rest, exactStage nt titles q = [] →
      substring_matches nt titles q = [] →
      fuzzy_matches score titles q FUZZY_THRESHOLD = p :: rest →
      select_title_from_user_query nt score titles q =
        .ambiguousScored (p :: rest)) ∧
    (exactStage nt titles q = [] →
      substring_matches nt titles q = [] →
      fuzzy_matches score titles q FUZZY_THRESHOLD = [] →
      select_title_from_user_query nt score titles q = .noMatch) := by
  refine ⟨?_, ?_, ?_, ?_, ?_⟩
  · intro t rest h
    simp [select_title_from_user_query, h]
  · intro t h1 h2
    simp [select_title_from_user_query, h1, h2]
  · intro t1 t2 rest h1 h2
    simp [select_title_from_user_query, h1, h2]
  · intro p rest h1 h2 h3
    simp [select_title_from_user_query, h1, h2, h3]
  · intro h1 h2 h3
    simp [select_title_from_user_query, h1, h2, h3]

/-- C6 witness: the amended claim applied at concrete inputs. -/
theorem C6_witness :
    select_title_from_user_query normalize_title_ascii zeroScore ["Alpha"]
        "ALPHA" = .unique "Alpha" ∧
    select_title_from_user_query normalize_title_ascii c8score
        ["A", "B", "C"] "q" =
      .ambiguousScored [("C", 80), ("A", 70), ("B", 70)] :=
  ⟨(C6_theorem normalize_title_ascii zeroScore ["Alpha"] "ALPHA").1 "Alpha" []
      (by decide),
   (C6_theorem normalize_title_ascii c8score ["A", "B", "C"] "q").2.2.2.1
      ("C", 80) [("A", 70), ("B", 70)] (by decide) (by decide) (by decide)⟩

/-! ## Claim C7 -/

/-- C7: when some candidate normalizes equal to the query, resolution is
decided entirely by the exact stage — the resolver returns the first
exact survivor and its result does not depend on the fuzzy scoring
function at all; likewise, whenever the substring stage is non-empty the
fuzzy stage contributes nothing, so each later stage matters only when the
previous stage yields zero matches. -/
theorem C7_theorem (nt : String → String)
    (score1 score2 : String → String → Rat) (titles : List String)
    (q : String) :
    ((∃ t ∈ titles, nt t = nt q) →
      (∃ t rest, exactStage nt titles q = t :: rest ∧
        select_title_from_user_query nt score1 titles q = .unique t) ∧
      select_title_from_user_query nt score1 titles q =
        select_title_from_user_query nt score2 titles q) ∧
    (substring_matches nt titles q ≠ [] →
      select_title_from_user_query nt score1 titles q =
        select_title_from_user_query nt score2 titles q) := by
  constructor
  · rintro ⟨t, ht, heq⟩
    have hmem : t ∈ exactStage nt titles q := by
      simp [exactStage, List.mem_filter, ht, heq]
    cases he : exactStage nt titles q with
    | nil => rw [he] at hmem; simp at hmem
    | cons a l =>
      exact ⟨⟨a, l, rfl, by simp [select_title_from_user_query, he]⟩,
        by simp [select_title_from_user_query, he]⟩
  · intro h
    cases he : exactStage nt titles q with
    | cons a l => simp [select_title_from_user_query, he]
    | nil =>
      cases hs : substring_matches nt titles q with
      | nil => exact absurd hs h
      | cons s ss =>
        cases ss with
        | nil => simp [select_title_from_user_query, he, hs]
        | cons s2 ss2 => simp [select_title_from_user_query, he, hs]

/-- C7 witness: the claim applied at a concrete input. -/
theorem C7_witness :
    (∃ t rest, exactStage normalize_title_ascii ["Movie"] "MOVIE" =
        t :: rest ∧
      select_title_from_user_query normalize_title_ascii zeroScore ["Movie"]
        "MOVIE" = .unique t) ∧
    select_title_from_user_query normalize_title_ascii zeroScore ["Movie"]
        "MOVIE" =
      select_title_from_user_query normalize_title_ascii c8score ["Movie"]
        "MOVIE" :=
  (C7_theorem normalize_title_ascii zeroScore c8score ["Movie"] "MOVIE").1
    ⟨"Movie", by decide, by decide⟩

/-! ## Claim C8 -/

/-- C8: the fuzzy stage returns exactly the candidates whose score against
the raw query is at least the threshold 60 (so a candidate scoring exactly
60 is included and one scoring 59 is excluded), sorted by score descending
with title ascending as the tie-break; in particular the scores
{A: 70, B: 70, C: 80} produce the order C, A, B. -/
theorem C8_theorem (score : String → String → Rat) (titles : List String)
    (q : String) :
    (∀ t s, (t, s) ∈ fuzzy_matches score titles q FUZZY_THRESHOLD ↔
      t ∈ titles ∧ s = score q t ∧ FUZZY_THRESHOLD ≤ s) ∧
    (fuzzy_matches score titles q FUZZY_THRESHOLD).Sorted fuzzyLe ∧
    fuzzy_matches c8score ["A", "B", "C"] "q" FUZZY_THRESHOLD =
      [("C", 80), ("A", 70), ("B", 70)] ∧
    fuzzy_matches c8boundaryScore ["Sixty", "FiftyNine"] "q" FUZZY_THRESHOLD =
      [("Sixty", 60)] := by
  refine ⟨fun t s => ?_, ?_, by decide, by decide⟩
  · simp only [fuzzy_matches, List.mem_insertionSort, List.mem_filter,
      List.mem_map, decide_eq_true_iff]
    constructor
    · rintro ⟨⟨t2, ht2, heq⟩, hle⟩
      cases heq
      exact ⟨ht2, rfl, hle⟩
    · rintro ⟨ht, rfl, hle⟩
      exact ⟨⟨t, ht, rfl⟩, hle⟩
  · haveI : IsTotal (String × Rat) fuzzyLe := ⟨fuzzyLe_total⟩
    haveI : IsTrans (String × Rat) fuzzyLe := ⟨fuzzyLe_trans⟩
    exact List.sorted_insertionSort fuzzyLe _

/-- C8 witness: the characterization applied at a concrete input. -/
theorem C8_witness :
    ("C", (80 : Rat)) ∈ fuzzy_matches c8score ["A", "B", "C"] "q"
      FUZZY_THRESHOLD :=
  ((C8_theorem c8score ["A", "B", "C"] "q").1 "C" 80).mpr (by decide)

/-! ## Claim C9 -/

/-- C9: the migration is idempotent: on a file whose fieldnames lack
"notes" the first run returns True (changed) and rewrites the store with
the enlarged schema, new cells defaulting to empty, and a second run on
the result returns False (unchanged) with the state untouched; the backup
is created exactly once — when no backup exists the original file content
becomes the backup, and an existing backup is never overwritten. -/
theorem C9_theorem (fs : CsvFs) (f : CsvFile)
    (hmain : fs.main = some f)
    (hnotes : "notes" ∉ migrateFieldnames f) :
    migrate_csv_add_notes fs =
      .ok (true, { main := some (migratedFile f)
                 , backup := if fs.backup.isNone then some f
                             else fs.backup }) ∧
    migrate_csv_add_notes
        { main := some (migratedFile f)
        , backup := if fs.backup.isNone then some f else fs.backup } =
      .ok (false, { main := some (migratedFile f)
                  , backup := if fs.backup.isNone then some f
                              else fs.backup }) ∧
    (fs.backup = none →
      (if fs.backup.isNone then some f else fs.backup) = some f) ∧
    (∀ b, fs.backup = some b →
      (if fs.backup.isNone then some f else fs.backup) = some b) := by
  obtain ⟨m, b⟩ := fs
  replace hmain : m = some f := hmain
  subst hmain
  have hcont : (migrateFieldnames f).contains "notes" = false := by
    simpa using hnotes
  have hcont2 : (migrateFieldnames (migratedFile f)).contains "notes" =
      true := by
    have hh : migrateFieldnames (migratedFile f) =
        migrateFieldnames f ++ ["notes"] := by
      simp [migrateFieldnames, migratedFile]
    rw [hh]
    simp
  cases b <;> simp [migrate_csv_add_notes, hcont, hcont2] <;>
    exact ⟨hnotes, by simpa using hcont2⟩

/-- C9 witness: the claim applied to a legacy four-column file with one
data row and no existing backup. -/
theorem C9_witness :
    migrate_csv_add_notes ⟨some legacyFile, none⟩ =
      .ok (true, ⟨some (migratedFile legacyFile), some legacyFile⟩) ∧
    migrate_csv_add_notes
        ⟨some (migratedFile legacyFile), some legacyFile⟩ =
      .ok (false, ⟨some (migratedFile legacyFile), some legacyFile⟩) ∧
    ((none : Option CsvFile) = none →
      (some legacyFile : Option CsvFile) = some legacyFile) ∧
    (∀ b, (none : Option CsvFile) = some b →
      (some legacyFile : Option CsvFile) = some b) :=
  C9_theorem ⟨some legacyFile, none⟩ legacyFile rfl (by decide)

/-! ## Claim C10 -/

/-- C10: constructing the CSV backend on an existing, non-empty file whose
header lacks any one of the six expected columns rewrites the store to a
fresh header row alone, discarding every existing data row, and touches no
backup; in particular a legacy four-column file loses all its records. -/
theorem C10_theorem (fs : CsvFs) (f : CsvFile) (c : String)
    (hmain : fs.main = some f) (hne : f.header ≠ [])
    (hc : c ∈ FIELDNAMES) (hmiss : c ∉ f.header) :
    StorageCsv.constructor fs =
      ⟨some ⟨FIELDNAMES, []⟩, fs.backup⟩ := by
  obtain ⟨m, b⟩ := fs
  replace hmain : m = some f := hmain
  subst hmain
  have _hne2 : f.header ≠ [] := hne
  have hany : FIELDNAMES.any (fun fn => !(f.header.contains fn)) = true := by
    rw [List.any_eq_true]
    exact ⟨c, hc, by simpa using hmiss⟩
  simp [StorageCsv.constructor, StorageCsv.ensure_file, hany]
  intro _ hall
  exact absurd (hall c hc) hmiss

/-- C10 witness: the claim applied to a legacy four-column file with one
data row; the "notes" column is missing from its header. -/
theorem C10_witness :
    StorageCsv.constructor ⟨some legacyFile, none⟩ =
      ⟨some ⟨FIELDNAMES, []⟩, none⟩ :=
  C10_theorem ⟨some legacyFile, none⟩ legacyFile "notes" rfl (by decide)
    (by decide) (by decide)
